import Mathlib

/-
Verification of the WatchParty room-synchronization engine
(`src/watch_party.py`, with the reduced variant `src/scripts/watch_party.py`).

The Python source is shallowly embedded: connections are natural numbers,
wall-clock instants and media positions are rationals, JSON values are the
inductive `JVal`, and the per-connection session handler `ws_endpoint` is
split into its handshake part (`sessionFirst`) and its ACTIVE-loop body
(`handleMsg`).  Sends are modelled by a predicate `sendOk : ℕ → Bool`
telling which connections accept delivery; a broadcast returns the pruned
room together with the set of connections actually delivered to.
-/

namespace WatchParty

/-- JSON-like values as far as the server inspects them: `null`, booleans,
numbers (the server never does arithmetic on them, an integer model suffices)
and strings. -/
inductive JVal where
  | jnull : JVal
  | jbool : Bool → JVal
  | jnum : Int → JVal
  | jstr : String → JVal
deriving DecidableEq

/-- Python `str(v)` on a JSON value: `str(None) = "None"`, `str(True) = "True"`,
`str(False) = "False"`, numbers print themselves, strings pass through. -/
def pyStr : JVal → String
  | .jnull => "None"
  | .jbool true => "True"
  | .jbool false => "False"
  | .jnum n => toString n
  | .jstr s => s

/-- Python `bool(v)` on a JSON value: `None`, `0` and `""` are falsy. -/
def pyBool : JVal → Bool
  | .jnull => false
  | .jbool b => b
  | .jnum n => n != 0
  | .jstr s => s != ""

/-- ASCII whitespace as recognised by Python `str.strip()`. -/
def pyIsSpace (c : Char) : Bool :=
  c == ' ' || c == '\t' || c == '\n' || c == '\r' || c == '\x0b' || c == '\x0c'

/-- Python `s.strip()`: drop leading and trailing whitespace. -/
def pyStrip (s : String) : String :=
  String.mk (((s.toList.dropWhile pyIsSpace).reverse.dropWhile pyIsSpace).reverse)

/-- An inbound client message, viewed as the JSON dictionary fields the server
reads with `msg.get(...)`.  A field holds `none` when the key is absent.  The
fields `at_`, `to_` and `playing` correspond to the documented `at`, `to` and
`playing` keys of `play`/`pause`/`seek`; the observed server never reads them. -/
structure JDict where
  type : Option JVal := none
  room : Option JVal := none
  name : Option JVal := none
  want_host : Option JVal := none
  media_id : Option JVal := none
  t : Option JVal := none
  at_ : Option JVal := none
  to_ : Option JVal := none
  playing : Option JVal := none
deriving DecidableEq

/-- The room state of `RoomState` in `src/watch_party.py` (lines 28-36).
Connections (`WebSocket` objects) are numbers; `clients` is the Python set,
`client_ids` the Python dict from connection to client id, modelled as an
association list. -/
structure RoomState where
  is_playing : Bool := false
  position : ℚ := 0
  media_id : String := ""
  host_id : Option String := none
  updated_at : ℚ := 0
  clients : Finset ℕ := ∅
  client_ids : List (ℕ × String) := []
deriving DecidableEq

/-- A fresh `RoomState()`: the `updated_at` default factory reads the current
clock, every other field takes its dataclass default. -/
def RoomState.init (now : ℚ) : RoomState :=
  { updated_at := now }

/-- Line 38-42 of `src/watch_party.py`: if not playing the committed position,
otherwise the committed position advanced by the time since `updated_at`.
The Python method reads `time.time()` itself; the embedding passes `now`. -/
def RoomState.effective_position (r : RoomState) (now : ℚ) : ℚ :=
  if r.is_playing = false then r.position
  else r.position + (now - r.updated_at)

/-- Line 48-49: `int(time.time() * 1000)`. -/
def now_ms (now : ℚ) : Int :=
  ⌊now * 1000⌋

/-- Payload of a server `event` message: the command fields. -/
inductive Payload where
  | joinP (client_id : String) (name : String)
  | setMediaP (media_id : String)
deriving DecidableEq

/-- Server-to-client messages (comment block, lines 99-103). -/
inductive OutMsg where
  | welcome (client_id : String) (room : String) (host_id : Option String)
  | state (is_playing : Bool) (position : ℚ) (server_ts : Int)
      (media_id : String) (host_id : Option String)
  | event (kind : String) (payload : Payload) (server_ts : Int)
      (host_id : Option String)
  | pong (t : Option JVal) (server_ts : Int)
deriving DecidableEq

/-- Python dict assignment `d[ws] = cid`: the key maps to the new value,
all other keys are untouched. -/
def dictSet (l : List (ℕ × String)) (ws : ℕ) (cid : String) : List (ℕ × String) :=
  (ws, cid) :: l.filter (fun p => decide (p.1 ≠ ws))

/-- Python `d.pop(ws, None)` applied to every member of `dead`: the keys in
`dead` are dropped, absent keys are tolerated without error. -/
def dictDropAll (l : List (ℕ × String)) (dead : Finset ℕ) : List (ℕ × String) :=
  l.filter (fun p => decide (p.1 ∉ dead))

/-- The key set of the `client_ids` dict. -/
def dictKeys (l : List (ℕ × String)) : Finset ℕ :=
  (l.map Prod.fst).toFinset

/-- The connections a broadcast attempts delivery to: every member of
`room.clients` except the excluded one (lines 54-55). -/
def broadcastTargets (r : RoomState) (exclude : Option ℕ) : Finset ℕ :=
  match exclude with
  | none => r.clients
  | some e => r.clients.erase e

/-- Lines 52-63 of `src/watch_party.py`: attempt `send_json` to every
connection except `exclude`; a failed send is collected into `dead` instead of
raising, and after the fan-out pass every dead connection is discarded from
`clients` and popped from `client_ids`.  `sendOk w` tells whether the send to
`w` succeeds; the function returns the pruned room and the set of connections
delivered to.  The function is total: no delivery failure reaches the caller. -/
def broadcast (r : RoomState) (msg : OutMsg) (exclude : Option ℕ)
    (sendOk : ℕ → Bool) : RoomState × Finset ℕ :=
  let targets := broadcastTargets r exclude
  let dead := targets.filter (fun w => sendOk w = false)
  ({ r with clients := r.clients \ dead,
            client_ids := dictDropAll r.client_ids dead },
   targets.filter (fun w => sendOk w = true))

/-- The global `rooms: Dict[str, RoomState]` registry. -/
abbrev Registry := List (String × RoomState)

/-- Lines 66-69: return the room for `room_id`, creating and storing a fresh
`RoomState()` first when absent. -/
def require_room (rooms : Registry) (room_id : String) (now : ℚ) :
    Registry × RoomState :=
  match rooms.lookup room_id with
  | some r => (rooms, r)
  | none => (rooms ++ [(room_id, RoomState.init now)], RoomState.init now)

/-- Store back the (mutated-in-place in Python) room under its id. -/
def registrySet (rooms : Registry) (room_id : String) (r : RoomState) : Registry :=
  rooms.map (fun p => if p.1 = room_id then (room_id, r) else p)

/-- Lines 132-133: `room.clients.add(ws)` and `room.client_ids[ws] = client_id`. -/
def registerClient (r : RoomState) (ws : ℕ) (client_id : String) : RoomState :=
  { r with clients := insert ws r.clients,
           client_ids := dictSet r.client_ids ws client_id }

/-- Lines 135-139: assign host if none; the `elif want_host and room.host_id is
None` branch is kept verbatim (it is unreachable, its condition re-tests
`host_id is None` after the first test failed). -/
def assignHost (r : RoomState) (client_id : String) (want_host : Bool) : RoomState :=
  if r.host_id = none then { r with host_id := some client_id }
  else if want_host = true ∧ r.host_id = none then { r with host_id := some client_id }
  else r

/-- Lines 141-143: adopt the joiner's media id only when the room has none,
one was supplied, and the joiner is the host. -/
def adoptInitialMedia (r : RoomState) (client_id : String)
    (initial_media_id : String) : RoomState :=
  if r.media_id = "" ∧ initial_media_id ≠ "" ∧ some client_id = r.host_id
  then { r with media_id := initial_media_id }
  else r

/-- The `join` event broadcast to the rest of the room (lines 163-169). -/
def joinEventMsg (r : RoomState) (client_id name : String) (now : ℚ) : OutMsg :=
  .event "join" (.joinP client_id name) (now_ms now) r.host_id

/-- The room-level effect of a completed join (lines 132-143 and the join
broadcast of lines 163-169, which excludes the joiner): returns the resulting
room, the join event and the set of connections it was delivered to. -/
def roomJoin (r : RoomState) (ws : ℕ) (client_id name : String)
    (want_host : Bool) (initial_media_id : String) (now : ℚ)
    (sendOk : ℕ → Bool) : RoomState × OutMsg × Finset ℕ :=
  let r1 := registerClient r ws client_id
  let r2 := assignHost r1 client_id want_host
  let r3 := adoptInitialMedia r2 client_id initial_media_id
  let ev := joinEventMsg r3 client_id name now
  let b := broadcast r3 ev (some ws) sendOk
  (b.1, ev, b.2)

/-- Result of one ACTIVE-loop iteration: the room afterwards, direct replies
to the handling connection, the event broadcast this step (if any) and the
set of connections it reached.  The loop itself never closes the connection;
every branch falls through to the next `receive`. -/
structure StepOut where
  room : RoomState
  replies : List OutMsg := []
  event : Option OutMsg := none
  delivered : Finset ℕ := ∅
deriving DecidableEq

/-- Modelled from the spec: `src/watch_party.py` breaks off inside the
`set_media` branch — the file ends right after `room.position = 0.0`, leaving
the `try:` opened at line 115 without a handler, so the remainder of the
branch is not among the sources.  Per spec §4.1 `setMedia` also sets
`updatedAt = now`, and per §4.4 step 3 the handler then broadcasts an `event`
message whose `kind` is the command name, whose `payload` is the command
fields, with a server timestamp and the current `hostId`, to all connections
including the sender (no exclusion). -/
def setMediaTail (r : RoomState) (media_id : String) (now : ℚ)
    (sendOk : ℕ → Bool) : RoomState × OutMsg × Finset ℕ :=
  let r1 := { r with updated_at := now }
  let ev : OutMsg := .event "set_media" (.setMediaP media_id) (now_ms now) r1.host_id
  let b := broadcast r1 ev none sendOk
  (b.1, ev, b.2)

/-- Lines 186-190 plus the spec-modelled tail: `media_id` is read with
`str(msg.get("media_id", "")).strip()`, the room's media is replaced and
playback reset to a paused start, then `setMediaTail` runs. -/
def setMediaApply (r : RoomState) (m : JDict) (now : ℚ)
    (sendOk : ℕ → Bool) : StepOut :=
  let media_id := pyStrip (pyStr (m.media_id.getD (.jstr "")))
  let r1 := { r with media_id := media_id, is_playing := false,
                     position := (0 : ℚ) }
  let tl := setMediaTail r1 media_id now sendOk
  { room := tl.1, event := some tl.2.1, delivered := tl.2.2 }

/-- The body of the ACTIVE loop (lines 172-190): `ping` is answered with a
`pong` and touches nothing; for a `set_media` from a non-host the handler
just continues (`if not is_host: continue` — no reply, no state change, no
broadcast); for the host `setMediaApply` runs; any other message type
matches no branch and the loop continues with the room untouched. -/
def handleMsg (r : RoomState) (client_id : String) (m : JDict) (now : ℚ)
    (sendOk : ℕ → Bool) : StepOut :=
  if m.type = some (.jstr "ping") then
    { room := r, replies := [.pong m.t (now_ms now)] }
  else
    if m.type = some (.jstr "set_media") then
      if ¬ (r.host_id = some client_id) then { room := r }
      else setMediaApply r m now sendOk
    else
      { room := r }

/-- Outcome of the handshake: an immediate close with a code, or an active
session with room id, resulting room, the `welcome`/`state` replies, the
`join` event and its delivery set. -/
inductive FirstOut where
  | closed (code : ℕ)
  | active (room_id : String) (room : RoomState) (replies : List OutMsg)
      (event : OutMsg) (delivered : Finset ℕ)
deriving DecidableEq

/-- Lines 116-169 of `ws_endpoint`: the first message must be a `join`
(else close `1002`); its `room` field is coerced with `str(...).strip()` and
must be non-empty (else close `1008`); then the room is resolved through
`require_room`, the connection registered, host and media resolved, `welcome`
and `state` sent to the joiner and a `join` event broadcast to the others.
In both close cases the registry is returned untouched.  The `welcome`,
`state` and event messages are built from the joined room (the later join
broadcast only prunes `clients`/`client_ids`, which those messages never
read). -/
def sessionFirst (rooms : Registry) (ws : ℕ) (client_id : String)
    (join : JDict) (now : ℚ) (sendOk : ℕ → Bool) : Registry × FirstOut :=
  if ¬ (join.type = some (.jstr "join")) then (rooms, .closed 1002)
  else
    let room_id := pyStrip (pyStr (join.room.getD (.jstr "")))
    if room_id = "" then (rooms, .closed 1008)
    else
      let client_name := (pyStr (join.name.getD (.jstr "guest"))).take 40
      let want_host := pyBool (join.want_host.getD (.jbool false))
      let initial_media_id := pyStrip (pyStr (join.media_id.getD (.jstr "")))
      let rr := require_room rooms room_id now
      let j := roomJoin rr.2 ws client_id client_name want_host
        initial_media_id now sendOk
      let welcome := OutMsg.welcome client_id room_id j.1.host_id
      let stateMsg := OutMsg.state j.1.is_playing (j.1.effective_position now)
        (now_ms now) j.1.media_id j.1.host_id
      (registrySet rr.1 room_id j.1,
       .active room_id j.1 [welcome, stateMsg] j.2.1 j.2.2)

/-- A room-level operation: a completed join, or a message received by some
session's ACTIVE loop. -/
inductive RoomOp where
  | joinOp (ws : ℕ) (client_id name : String) (want_host : Bool)
      (initial_media_id : String) (now : ℚ) (sendOk : ℕ → Bool)
  | msgOp (client_id : String) (m : JDict) (now : ℚ) (sendOk : ℕ → Bool)

/-- Apply one room-level operation to a room. -/
def applyRoomOp (r : RoomState) (op : RoomOp) : RoomState :=
  match op with
  | .joinOp ws cid nm wh im now sk => (roomJoin r ws cid nm wh im now sk).1
  | .msgOp cid m now sk => (handleMsg r cid m now sk).room

/-- The invariant tying the two membership structures together: the key set
of `client_ids` equals the `clients` set. -/
def InvClients (r : RoomState) : Prop :=
  dictKeys r.client_ids = r.clients

instance (r : RoomState) : Decidable (InvClients r) :=
  inferInstanceAs (Decidable (dictKeys r.client_ids = r.clients))

/-- A concrete playing room with host `"h"` and guest `"g"`, used as witness
input. -/
def hostRoom : RoomState :=
  { is_playing := true, position := 3, media_id := "m1", host_id := some "h",
    updated_at := 1, clients := {1, 2}, client_ids := [(1, "h"), (2, "g")] }

/-- A concrete `set_media` message carrying `"m2"`, used as witness input. -/
def setMediaMsg : JDict :=
  { type := some (.jstr "set_media"), media_id := some (.jstr "m2") }

/-- A concrete three-member room, used as witness input. -/
def mixedRoom : RoomState :=
  { host_id := some "h", clients := {1, 2, 3},
    client_ids := [(1, "h"), (2, "g"), (3, "x")] }

/-- An arbitrary concrete server message, used as witness input. -/
def pongMsg : OutMsg :=
  .pong none 0

theorem broadcast_fst_host_id (r : RoomState) (msg : OutMsg) (ex : Option ℕ)
    (sk : ℕ → Bool) : (broadcast r msg ex sk).1.host_id = r.host_id := rfl

theorem broadcast_fst_clients (r : RoomState) (msg : OutMsg) (ex : Option ℕ)
    (sk : ℕ → Bool) :
    (broadcast r msg ex sk).1.clients
      = r.clients \ (broadcastTargets r ex).filter (fun w => sk w = false) := rfl

theorem broadcast_fst_client_ids (r : RoomState) (msg : OutMsg) (ex : Option ℕ)
    (sk : ℕ → Bool) :
    (broadcast r msg ex sk).1.client_ids
      = dictDropAll r.client_ids
          ((broadcastTargets r ex).filter (fun w => sk w = false)) := rfl

theorem broadcast_snd (r : RoomState) (msg : OutMsg) (ex : Option ℕ)
    (sk : ℕ → Bool) :
    (broadcast r msg ex sk).2
      = (broadcastTargets r ex).filter (fun w => sk w = true) := rfl

theorem dictKeys_dictSet (l : List (ℕ × String)) (ws : ℕ) (cid : String) :
    dictKeys (dictSet l ws cid) = insert ws (dictKeys l) := by
  ext a
  by_cases hws : a = ws
  · subst hws
    simp [dictKeys, dictSet, List.mem_filter]
  · simp [dictKeys, dictSet, List.mem_filter, hws]

theorem dictKeys_dictDropAll (l : List (ℕ × String)) (dead : Finset ℕ) :
    dictKeys (dictDropAll l dead) = dictKeys l \ dead := by
  ext a
  simp only [dictKeys, dictDropAll, List.mem_toFinset, List.mem_map,
    List.mem_filter, Finset.mem_sdiff, decide_eq_true_eq]
  constructor
  · rintro ⟨p, ⟨hp, hd⟩, hpa⟩
    exact ⟨⟨p, hp, hpa⟩, hpa ▸ hd⟩
  · rintro ⟨⟨p, hp, hpa⟩, hd⟩
    exact ⟨p, ⟨hp, hpa ▸ hd⟩, hpa⟩

theorem assignHost_host_id_of_some {r : RoomState} {a : String}
    (h : r.host_id = some a) (cid : String) (wh : Bool) :
    (assignHost r cid wh).host_id = some a := by
  unfold assignHost
  rw [if_neg (by simp [h]), if_neg (by simp [h])]
  exact h

theorem assignHost_host_id_of_none {r : RoomState} (h : r.host_id = none)
    (cid : String) (wh : Bool) :
    (assignHost r cid wh).host_id = some cid := by
  unfold assignHost
  rw [if_pos h]

theorem assignHost_clients (r : RoomState) (cid : String) (wh : Bool) :
    (assignHost r cid wh).clients = r.clients := by
  unfold assignHost
  split
  · rfl
  · split
    · rfl
    · rfl

theorem assignHost_client_ids (r : RoomState) (cid : String) (wh : Bool) :
    (assignHost r cid wh).client_ids = r.client_ids := by
  unfold assignHost
  split
  · rfl
  · split
    · rfl
    · rfl

theorem adoptInitialMedia_host_id (r : RoomState) (cid im : String) :
    (adoptInitialMedia r cid im).host_id = r.host_id := by
  unfold adoptInitialMedia
  split
  · rfl
  · rfl

theorem adoptInitialMedia_clients (r : RoomState) (cid im : String) :
    (adoptInitialMedia r cid im).clients = r.clients := by
  unfold adoptInitialMedia
  split
  · rfl
  · rfl

theorem adoptInitialMedia_client_ids (r : RoomState) (cid im : String) :
    (adoptInitialMedia r cid im).client_ids = r.client_ids := by
  unfold adoptInitialMedia
  split
  · rfl
  · rfl

theorem roomJoin_fst (r : RoomState) (ws : ℕ) (cid nm : String) (wh : Bool)
    (im : String) (now : ℚ) (sk : ℕ → Bool) :
    (roomJoin r ws cid nm wh im now sk).1
      = (broadcast
          (adoptInitialMedia (assignHost (registerClient r ws cid) cid wh) cid im)
          (joinEventMsg
            (adoptInitialMedia (assignHost (registerClient r ws cid) cid wh) cid im)
            cid nm now)
          (some ws) sk).1 := rfl

theorem setMediaTail_fst_media_id (r : RoomState) (mid : String) (now : ℚ)
    (sk : ℕ → Bool) : (setMediaTail r mid now sk).1.media_id = r.media_id := rfl

theorem setMediaTail_fst_is_playing (r : RoomState) (mid : String) (now : ℚ)
    (sk : ℕ → Bool) :
    (setMediaTail r mid now sk).1.is_playing = r.is_playing := rfl

theorem setMediaTail_fst_position (r : RoomState) (mid : String) (now : ℚ)
    (sk : ℕ → Bool) : (setMediaTail r mid now sk).1.position = r.position := rfl

theorem setMediaTail_fst_updated_at (r : RoomState) (mid : String) (now : ℚ)
    (sk : ℕ → Bool) : (setMediaTail r mid now sk).1.updated_at = now := rfl

theorem setMediaTail_fst_host_id (r : RoomState) (mid : String) (now : ℚ)
    (sk : ℕ → Bool) : (setMediaTail r mid now sk).1.host_id = r.host_id := rfl

theorem setMediaTail_event (r : RoomState) (mid : String) (now : ℚ)
    (sk : ℕ → Bool) :
    (setMediaTail r mid now sk).2.1
      = OutMsg.event "set_media" (.setMediaP mid) (now_ms now) r.host_id := rfl

theorem setMediaTail_delivered (r : RoomState) (mid : String) (now : ℚ)
    (sk : ℕ → Bool) :
    (setMediaTail r mid now sk).2.2
      = r.clients.filter (fun w => sk w = true) := rfl

theorem setMediaApply_room_eq (r : RoomState) (m : JDict) (now : ℚ)
    (sk : ℕ → Bool) :
    (setMediaApply r m now sk).room
      = (broadcast
          { r with media_id := pyStrip (pyStr (m.media_id.getD (.jstr ""))),
                   is_playing := false, position := 0, updated_at := now }
          (OutMsg.event "set_media"
            (.setMediaP (pyStrip (pyStr (m.media_id.getD (.jstr "")))))
            (now_ms now) r.host_id)
          none sk).1 := rfl

theorem setMediaApply_room_media_id (r : RoomState) (m : JDict) (now : ℚ)
    (sk : ℕ → Bool) :
    (setMediaApply r m now sk).room.media_id
      = pyStrip (pyStr (m.media_id.getD (.jstr ""))) := rfl

theorem setMediaApply_room_is_playing (r : RoomState) (m : JDict) (now : ℚ)
    (sk : ℕ → Bool) : (setMediaApply r m now sk).room.is_playing = false := rfl

theorem setMediaApply_room_position (r : RoomState) (m : JDict) (now : ℚ)
    (sk : ℕ → Bool) : (setMediaApply r m now sk).room.position = 0 := rfl

theorem setMediaApply_room_updated_at (r : RoomState) (m : JDict) (now : ℚ)
    (sk : ℕ → Bool) : (setMediaApply r m now sk).room.updated_at = now := rfl

theorem setMediaApply_room_host_id (r : RoomState) (m : JDict) (now : ℚ)
    (sk : ℕ → Bool) : (setMediaApply r m now sk).room.host_id = r.host_id := rfl

theorem setMediaApply_event (r : RoomState) (m : JDict) (now : ℚ)
    (sk : ℕ → Bool) :
    (setMediaApply r m now sk).event
      = some (OutMsg.event "set_media"
          (.setMediaP (pyStrip (pyStr (m.media_id.getD (.jstr "")))))
          (now_ms now) r.host_id) := rfl

theorem setMediaApply_delivered (r : RoomState) (m : JDict) (now : ℚ)
    (sk : ℕ → Bool) :
    (setMediaApply r m now sk).delivered
      = r.clients.filter (fun w => sk w = true) := rfl

theorem handleMsg_host_id (r : RoomState) (cid : String) (m : JDict) (now : ℚ)
    (sk : ℕ → Bool) : (handleMsg r cid m now sk).room.host_id = r.host_id := by
  unfold handleMsg
  split
  · rfl
  · split
    · split
      · rfl
      · exact setMediaApply_room_host_id r m now sk
    · rfl

theorem roomJoin_host_id_of_some {r : RoomState} {a : String}
    (h : r.host_id = some a) (ws : ℕ) (cid nm : String) (wh : Bool)
    (im : String) (now : ℚ) (sk : ℕ → Bool) :
    (roomJoin r ws cid nm wh im now sk).1.host_id = some a := by
  rw [roomJoin_fst, broadcast_fst_host_id, adoptInitialMedia_host_id]
  exact @assignHost_host_id_of_some (registerClient r ws cid) a h cid wh

theorem roomJoin_host_id_of_none {r : RoomState} (h : r.host_id = none)
    (ws : ℕ) (cid nm : String) (wh : Bool) (im : String) (now : ℚ)
    (sk : ℕ → Bool) :
    (roomJoin r ws cid nm wh im now sk).1.host_id = some cid := by
  rw [roomJoin_fst, broadcast_fst_host_id, adoptInitialMedia_host_id]
  exact @assignHost_host_id_of_none (registerClient r ws cid) h cid wh

theorem applyRoomOp_host_id_of_some {r : RoomState} {a : String}
    (h : r.host_id = some a) (op : RoomOp) :
    (applyRoomOp r op).host_id = some a := by
  cases op with
  | joinOp ws cid nm wh im now sk => exact roomJoin_host_id_of_some h ws cid nm wh im now sk
  | msgOp cid m now sk => exact (handleMsg_host_id r cid m now sk).trans h

theorem foldl_applyRoomOp_host_id {a : String} :
    ∀ (ops : List RoomOp) (r : RoomState), r.host_id = some a →
      (ops.foldl applyRoomOp r).host_id = some a
  | [], _, h => h
  | op :: rest, r, h =>
      foldl_applyRoomOp_host_id rest (applyRoomOp r op)
        (applyRoomOp_host_id_of_some h op)

theorem InvClients_registerClient {r : RoomState} (h : InvClients r) (ws : ℕ)
    (cid : String) : InvClients (registerClient r ws cid) := by
  show dictKeys (dictSet r.client_ids ws cid) = insert ws r.clients
  rw [dictKeys_dictSet, show dictKeys r.client_ids = r.clients from h]

theorem InvClients_broadcast {r : RoomState} (h : InvClients r) (msg : OutMsg)
    (ex : Option ℕ) (sk : ℕ → Bool) : InvClients (broadcast r msg ex sk).1 := by
  unfold InvClients
  rw [broadcast_fst_clients, broadcast_fst_client_ids, dictKeys_dictDropAll,
    show dictKeys r.client_ids = r.clients from h]

theorem InvClients_roomJoin {r : RoomState} (h : InvClients r) (ws : ℕ)
    (cid nm : String) (wh : Bool) (im : String) (now : ℚ) (sk : ℕ → Bool) :
    InvClients (roomJoin r ws cid nm wh im now sk).1 := by
  have h1 : InvClients (registerClient r ws cid) :=
    InvClients_registerClient h ws cid
  have h2 : InvClients (assignHost (registerClient r ws cid) cid wh) := by
    unfold InvClients
    rw [assignHost_clients, assignHost_client_ids]
    exact h1
  have h3 : InvClients (adoptInitialMedia
      (assignHost (registerClient r ws cid) cid wh) cid im) := by
    unfold InvClients
    rw [adoptInitialMedia_clients, adoptInitialMedia_client_ids]
    exact h2
  unfold InvClients
  rw [roomJoin_fst]
  exact InvClients_broadcast h3 _ _ _

theorem InvClients_setMediaApply {r : RoomState} (h : InvClients r)
    (m : JDict) (now : ℚ) (sk : ℕ → Bool) :
    InvClients (setMediaApply r m now sk).room := by
  unfold InvClients
  rw [setMediaApply_room_eq]
  exact @InvClients_broadcast
    { r with media_id := pyStrip (pyStr (m.media_id.getD (.jstr ""))),
             is_playing := false, position := 0, updated_at := now }
    h _ _ _

theorem InvClients_handleMsg {r : RoomState} (h : InvClients r) (cid : String)
    (m : JDict) (now : ℚ) (sk : ℕ → Bool) :
    InvClients (handleMsg r cid m now sk).room := by
  unfold handleMsg
  split
  · exact h
  · split
    · split
      · exact h
      · exact InvClients_setMediaApply h m now sk
    · exact h

theorem pyStrip_empty : pyStrip "" = "" := rfl

/-- C1: `effective_position` returns `position` unchanged when `is_playing` is
false and `position + (now - updated_at)` when it is true; consequently two
reads `dt` seconds apart while playing, with no intervening command, differ
by exactly `dt`. -/
theorem c1_effective_position (r : RoomState) (now dt : ℚ) :
    (r.is_playing = false → r.effective_position now = r.position) ∧
    (r.is_playing = true →
      r.effective_position now = r.position + (now - r.updated_at)) ∧
    (r.is_playing = true →
      r.effective_position (now + dt) - r.effective_position now = dt) := by
  refine ⟨fun h => ?_, fun h => ?_, fun h => ?_⟩ <;>
    simp [RoomState.effective_position, h]

/-- Witness for C1 at concrete paused and playing rooms. -/
theorem c1_effective_position_witness :
    (RoomState.effective_position
        { is_playing := false, position := 5, updated_at := 1 } 9 = 5) ∧
    (RoomState.effective_position
        { is_playing := true, position := 5, updated_at := 1 } 9
      = 5 + (9 - 1)) ∧
    (RoomState.effective_position
        { is_playing := true, position := 5, updated_at := 1 } (9 + 2)
      - RoomState.effective_position
        { is_playing := true, position := 5, updated_at := 1 } 9 = 2) :=
  ⟨(c1_effective_position { is_playing := false, position := 5, updated_at := 1 } 9 0).1 rfl,
   (c1_effective_position { is_playing := true, position := 5, updated_at := 1 } 9 0).2.1 rfl,
   (c1_effective_position { is_playing := true, position := 5, updated_at := 1 } 9 2).2.2 rfl⟩

/-- C2: a completed join into a room whose `host_id` is unset makes the joiner
the host, and once `host_id` is assigned no sequence of further operations —
joins with any `want_host` value, or received commands — ever changes it. -/
theorem c2_host_first_join_and_stable :
    (∀ (r : RoomState) (ws : ℕ) (cid nm : String) (wh : Bool) (im : String)
        (now : ℚ) (sk : ℕ → Bool), r.host_id = none →
        (roomJoin r ws cid nm wh im now sk).1.host_id = some cid) ∧
    (∀ (r : RoomState) (a : String) (ops : List RoomOp), r.host_id = some a →
        (ops.foldl applyRoomOp r).host_id = some a) :=
  ⟨fun _ ws cid nm wh im now sk h =>
      roomJoin_host_id_of_none h ws cid nm wh im now sk,
   fun r a ops h => foldl_applyRoomOp_host_id ops r h⟩

/-- Witness for C2: the first joiner of an empty room becomes host, and a
later join with `want_host := true` followed by a command leaves the original
host in place. -/
theorem c2_witness :
    ((roomJoin {} 1 "alice" "alice" false "" 0 (fun _ => true)).1.host_id
        = some "alice") ∧
    (([RoomOp.joinOp 2 "bob" "bob" true "m9" 1 (fun _ => true),
       RoomOp.msgOp "bob" setMediaMsg 2 (fun _ => true)].foldl
        applyRoomOp { host_id := some "alice" }).host_id = some "alice") :=
  ⟨c2_host_first_join_and_stable.1 {} 1 "alice" "alice" false "" 0
      (fun _ => true) rfl,
   c2_host_first_join_and_stable.2 { host_id := some "alice" } "alice"
      [RoomOp.joinOp 2 "bob" "bob" true "m9" 1 (fun _ => true),
       RoomOp.msgOp "bob" setMediaMsg 2 (fun _ => true)] rfl⟩

/-- C3: a `set_media` command from the host carrying identifier `s` (stable
under stripping) leaves the room with `media_id = s`, `is_playing = false`,
`position = 0` and `updated_at = now`; in the embedding the whole mutation is
the single pure update between the authorization check and the broadcast. -/
theorem c3_set_media_host_postcondition (r : RoomState) (cid : String)
    (m : JDict) (now : ℚ) (sk : ℕ → Bool) (s : String)
    (hhost : r.host_id = some cid)
    (htype : m.type = some (.jstr "set_media"))
    (hmedia : m.media_id = some (.jstr s))
    (hs : pyStrip s = s) :
    ((handleMsg r cid m now sk).room.media_id = s ∧
     (handleMsg r cid m now sk).room.is_playing = false ∧
     (handleMsg r cid m now sk).room.position = 0 ∧
     (handleMsg r cid m now sk).room.updated_at = now) := by
  unfold handleMsg
  rw [if_neg (by rw [htype]; decide), if_pos htype,
    if_neg (not_not_intro hhost)]
  refine ⟨?_, setMediaApply_room_is_playing r m now sk,
    setMediaApply_room_position r m now sk,
    setMediaApply_room_updated_at r m now sk⟩
  rw [setMediaApply_room_media_id, hmedia]
  simpa [pyStr] using hs

/-- Witness for C3 at a concrete playing room and a concrete command. -/
theorem c3_witness :
    ((handleMsg hostRoom "h" setMediaMsg 7 (fun _ => true)).room.media_id = "m2" ∧
     (handleMsg hostRoom "h" setMediaMsg 7 (fun _ => true)).room.is_playing = false ∧
     (handleMsg hostRoom "h" setMediaMsg 7 (fun _ => true)).room.position = 0 ∧
     (handleMsg hostRoom "h" setMediaMsg 7 (fun _ => true)).room.updated_at = 7) :=
  c3_set_media_host_postcondition hostRoom "h" setMediaMsg 7 (fun _ => true)
    "m2" rfl rfl rfl rfl

/-- C4: after the host's `set_media` mutation an `event` message whose kind is
the command name, whose payload is the command fields, with a server
timestamp and the current `host_id`, is broadcast; it is attempted at every
connection of the room (no exclusion) and reaches every one that accepts
delivery — the sender included. -/
theorem c4_set_media_broadcast (r : RoomState) (cid : String) (m : JDict)
    (now : ℚ) (sk : ℕ → Bool)
    (hhost : r.host_id = some cid)
    (htype : m.type = some (.jstr "set_media")) :
    ((handleMsg r cid m now sk).event =
        some (.event "set_media"
          (.setMediaP (pyStrip (pyStr (m.media_id.getD (.jstr "")))))
          (now_ms now) (some cid)) ∧
     (handleMsg r cid m now sk).delivered
        = r.clients.filter (fun w => sk w = true) ∧
     (∀ w ∈ r.clients, sk w = true →
        w ∈ (handleMsg r cid m now sk).delivered)) := by
  unfold handleMsg
  rw [if_neg (by rw [htype]; decide), if_pos htype,
    if_neg (not_not_intro hhost)]
  refine ⟨?_, setMediaApply_delivered r m now sk, fun w hw hsk => ?_⟩
  · rw [setMediaApply_event, hhost]
  · rw [setMediaApply_delivered]
    exact Finset.mem_filter.mpr ⟨hw, hsk⟩

/-- Witness for C4: the event reaches connection 1, the host's own. -/
theorem c4_witness :
    ((handleMsg hostRoom "h" setMediaMsg 7 (fun _ => true)).event =
        some (.event "set_media" (.setMediaP "m2") (now_ms 7) (some "h")) ∧
     1 ∈ (handleMsg hostRoom "h" setMediaMsg 7 (fun _ => true)).delivered) :=
  ⟨(c4_set_media_broadcast hostRoom "h" setMediaMsg 7 (fun _ => true) rfl rfl).1,
   (c4_set_media_broadcast hostRoom "h" setMediaMsg 7 (fun _ => true) rfl rfl).2.2
      1 (by decide) rfl⟩

/-- C5: divergence witness.  The protocol comment of the source declares
`play`, `pause` and `seek` as host-only commands and `play/pause/seek` event
kinds, but the ACTIVE loop has no dispatch branch for them: a `play {at}`
received from the host leaves the room exactly as it was — `position`,
`is_playing` and `updated_at` untouched — and produces no reply and no
broadcast. -/
theorem c5_play_from_host_ignored :
    handleMsg
        { host_id := some "h", media_id := "m1", clients := {1},
          client_ids := [(1, "h")] } "h"
        { type := some (.jstr "play"), at_ := some (.jnum 123) } 10
        (fun _ => true)
      = { room := { host_id := some "h", media_id := "m1", clients := {1},
                    client_ids := [(1, "h")] } } := by
  decide

/-- C6: a transport command (`set_media`, `play`, `pause` or `seek`) received
from a connection whose client id is not the room's host id is silently
dropped: the room is unchanged and no reply, no event and no delivery is
produced; the loop body returns normally, so the connection stays open and
the session loop continues. -/
theorem c6_non_host_command_dropped (r : RoomState) (cid : String) (m : JDict)
    (now : ℚ) (sk : ℕ → Bool) (k : String)
    (htype : m.type = some (.jstr k))
    (hk : k = "set_media" ∨ k = "play" ∨ k = "pause" ∨ k = "seek")
    (hhost : ¬ r.host_id = some cid) :
    handleMsg r cid m now sk = { room := r } := by
  rcases hk with rfl | rfl | rfl | rfl
  · unfold handleMsg
    rw [if_neg (by rw [htype]; decide), if_pos htype, if_pos hhost]
  · unfold handleMsg
    rw [if_neg (by rw [htype]; decide), if_neg (by rw [htype]; decide)]
  · unfold handleMsg
    rw [if_neg (by rw [htype]; decide), if_neg (by rw [htype]; decide)]
  · unfold handleMsg
    rw [if_neg (by rw [htype]; decide), if_neg (by rw [htype]; decide)]

/-- Witness for C6: guest `"g"` sends `set_media` to a room hosted by `"h"`. -/
theorem c6_witness :
    handleMsg hostRoom "g" setMediaMsg 7 (fun _ => true) = { room := hostRoom } :=
  c6_non_host_command_dropped hostRoom "g" setMediaMsg 7 (fun _ => true)
    "set_media" rfl (Or.inl rfl) (by decide)

/-- C7: `broadcast` attempts delivery to every connection of the room except
the excluded one; every connection whose send fails is, after the fan-out
pass, removed from `clients` and from the `client_ids` mapping; connections
whose send succeeds receive the message and stay in the room.  `broadcast` is
a total function, so no delivery failure reaches the caller. -/
theorem c7_broadcast_prunes_dead (r : RoomState) (msg : OutMsg)
    (ex : Option ℕ) (sk : ℕ → Bool) :
    ((∀ w ∈ r.clients, ex ≠ some w → w ∈ broadcastTargets r ex) ∧
     (∀ w ∈ broadcastTargets r ex, sk w = false →
        w ∉ (broadcast r msg ex sk).1.clients ∧
        w ∉ dictKeys (broadcast r msg ex sk).1.client_ids) ∧
     (∀ w ∈ broadcastTargets r ex, sk w = true →
        w ∈ (broadcast r msg ex sk).2) ∧
     (∀ w ∈ r.clients, sk w = true → w ∈ (broadcast r msg ex sk).1.clients)) := by
  refine ⟨fun w hw hne => ?_, fun w hw hsk => ?_, fun w hw hsk => ?_,
    fun w hw hsk => ?_⟩
  · cases ex with
    | none => exact hw
    | some e =>
        refine Finset.mem_erase.mpr ⟨fun h => hne (by rw [h]), hw⟩
  · have hdead : w ∈ (broadcastTargets r ex).filter (fun x => sk x = false) :=
      Finset.mem_filter.mpr ⟨hw, hsk⟩
    constructor
    · rw [broadcast_fst_clients]
      simp [Finset.mem_sdiff, hdead]
    · rw [broadcast_fst_client_ids, dictKeys_dictDropAll]
      simp [Finset.mem_sdiff, hdead]
  · rw [broadcast_snd]
    exact Finset.mem_filter.mpr ⟨hw, hsk⟩
  · rw [broadcast_fst_clients]
    refine Finset.mem_sdiff.mpr ⟨hw, ?_⟩
    simp [Finset.mem_filter, hsk]

/-- Witness for C7: in a room with connections 1, 2, 3, excluding 3 and with
connection 2 dead, delivery is attempted at 1, the dead 2 leaves both
membership structures, and the live 1 is delivered to and retained. -/
theorem c7_witness :
    ((1 ∈ broadcastTargets mixedRoom (some 3)) ∧
     (2 ∉ (broadcast mixedRoom pongMsg (some 3) (fun w => w != 2)).1.clients ∧
      2 ∉ dictKeys
        (broadcast mixedRoom pongMsg (some 3) (fun w => w != 2)).1.client_ids) ∧
     (1 ∈ (broadcast mixedRoom pongMsg (some 3) (fun w => w != 2)).2) ∧
     (1 ∈ (broadcast mixedRoom pongMsg (some 3) (fun w => w != 2)).1.clients)) :=
  ⟨(c7_broadcast_prunes_dead mixedRoom pongMsg (some 3) (fun w => w != 2)).1
      1 (by decide) (by decide),
   (c7_broadcast_prunes_dead mixedRoom pongMsg (some 3) (fun w => w != 2)).2.1
      2 (by decide) (by decide),
   (c7_broadcast_prunes_dead mixedRoom pongMsg (some 3) (fun w => w != 2)).2.2.1
      1 (by decide) (by decide),
   (c7_broadcast_prunes_dead mixedRoom pongMsg (some 3) (fun w => w != 2)).2.2.2
      1 (by decide) (by decide)⟩

/-- C8: a first message that is not a `join` closes the connection with code
1002; a `join` whose `room` field is missing or strips to the empty string
closes it with code 1008; in both cases the registry comes back exactly as it
was — no room is created — and the two close codes are distinct. -/
theorem c8_protocol_violation (rooms : Registry) (ws : ℕ) (cid : String)
    (m : JDict) (now : ℚ) (sk : ℕ → Bool) :
    ((¬ m.type = some (.jstr "join") →
        sessionFirst rooms ws cid m now sk = (rooms, .closed 1002)) ∧
     (m.type = some (.jstr "join") →
        pyStrip (pyStr (m.room.getD (.jstr ""))) = "" →
        sessionFirst rooms ws cid m now sk = (rooms, .closed 1008)) ∧
     (1002 : ℕ) ≠ 1008) := by
  refine ⟨fun h => ?_, fun h hr => ?_, by decide⟩
  · unfold sessionFirst
    rw [if_pos h]
  · unfold sessionFirst
    simp [h, hr]

/-- Witness for C8: a `ping` first message closes 1002 leaving a one-room
registry intact; a `join` with whitespace-only `room` closes 1008 creating
nothing in an empty registry. -/
theorem c8_witness :
    (sessionFirst [("r9", RoomState.init 0)] 1 "c"
        { type := some (.jstr "ping") } 0 (fun _ => true)
      = ([("r9", RoomState.init 0)], .closed 1002)) ∧
    (sessionFirst [] 1 "c"
        { type := some (.jstr "join"), room := some (.jstr "   ") } 0
        (fun _ => true)
      = ([], .closed 1008)) :=
  ⟨(c8_protocol_violation [("r9", RoomState.init 0)] 1 "c"
      { type := some (.jstr "ping") } 0 (fun _ => true)).1 (by decide),
   (c8_protocol_violation [] 1 "c"
      { type := some (.jstr "join"), room := some (.jstr "   ") } 0
      (fun _ => true)).2.1 rfl (by decide)⟩

/-- C9: the invariant that the key set of `client_ids` equals the `clients`
set is preserved by join registration (which adds the connection to both
together), by broadcast pruning (which removes every dead connection from
both together, tolerating absent entries since discard and pop-with-default
are total), and hence by the complete join and the complete loop body. -/
theorem c9_client_ids_matches_clients (r : RoomState) (ws : ℕ)
    (cid nm : String) (wh : Bool) (im : String) (m : JDict) (msg : OutMsg)
    (ex : Option ℕ) (now : ℚ) (sk : ℕ → Bool) (h : InvClients r) :
    (InvClients (registerClient r ws cid) ∧
     InvClients (broadcast r msg ex sk).1 ∧
     InvClients (roomJoin r ws cid nm wh im now sk).1 ∧
     InvClients (handleMsg r cid m now sk).room) :=
  ⟨InvClients_registerClient h ws cid, InvClients_broadcast h msg ex sk,
   InvClients_roomJoin h ws cid nm wh im now sk,
   InvClients_handleMsg h cid m now sk⟩

/-- Witness for C9 on a concrete three-member room with a dead connection. -/
theorem c9_witness :
    (InvClients (registerClient mixedRoom 4 "h") ∧
     InvClients (broadcast mixedRoom pongMsg (some 3) (fun w => w != 2)).1 ∧
     InvClients (roomJoin mixedRoom 4 "h" "dave" false "" 5 (fun w => w != 2)).1 ∧
     InvClients (handleMsg mixedRoom "h" setMediaMsg 5 (fun w => w != 2)).room) :=
  c9_client_ids_matches_clients mixedRoom 4 "h" "dave" false "" setMediaMsg
    pongMsg (some 3) 5 (fun w => w != 2) (by decide)

/-- C10 counterexample: a host `set_media` whose `media_id` field holds JSON
`null` is coerced with Python `str`, which yields `"None"`, so the room's
media id becomes the non-empty string `"None"` — not the empty string the
claim asserts. -/
theorem c10_counterexample_null_media :
    ((handleMsg { host_id := some "h" } "h"
        { type := some (.jstr "set_media"), media_id := some .jnull } 0
        (fun _ => true)).room.media_id = "None" ∧
     ¬ ((handleMsg { host_id := some "h" } "h"
        { type := some (.jstr "set_media"), media_id := some .jnull } 0
        (fun _ => true)).room.media_id = "")) := by
  decide

/-- C10 (amended): a host `set_media` is never rejected whatever the
`media_id` value; the value is coerced with `str` and stripped, and when the
field is missing, or holds a string that strips to empty, the room's media id
becomes the empty string while `is_playing` is still reset to false and
`position` to 0. -/
theorem c10_missing_or_blank_media (r : RoomState) (cid : String) (m : JDict)
    (now : ℚ) (sk : ℕ → Bool)
    (hhost : r.host_id = some cid)
    (htype : m.type = some (.jstr "set_media"))
    (hm : m.media_id = none ∨
      ∃ s, m.media_id = some (.jstr s) ∧ pyStrip s = "") :
    ((handleMsg r cid m now sk).room.media_id = "" ∧
     (handleMsg r cid m now sk).room.is_playing = false ∧
     (handleMsg r cid m now sk).room.position = 0) := by
  unfold handleMsg
  rw [if_neg (by rw [htype]; decide), if_pos htype,
    if_neg (not_not_intro hhost)]
  refine ⟨?_, setMediaApply_room_is_playing r m now sk,
    setMediaApply_room_position r m now sk⟩
  rw [setMediaApply_room_media_id]
  rcases hm with hm | ⟨s, hm, hs⟩
  · rw [hm]
    exact pyStrip_empty
  · rw [hm]
    simpa [pyStr] using hs

/-- Witness for C10 (amended): a host `set_media` with no `media_id` field. -/
theorem c10_witness :
    ((handleMsg { host_id := some "h", media_id := "m1" } "h"
        { type := some (.jstr "set_media") } 3 (fun _ => true)).room.media_id = "" ∧
     (handleMsg { host_id := some "h", media_id := "m1" } "h"
        { type := some (.jstr "set_media") } 3 (fun _ => true)).room.is_playing = false ∧
     (handleMsg { host_id := some "h", media_id := "m1" } "h"
        { type := some (.jstr "set_media") } 3 (fun _ => true)).room.position = 0) :=
  c10_missing_or_blank_media { host_id := some "h", media_id := "m1" } "h"
    { type := some (.jstr "set_media") } 3 (fun _ => true) rfl rfl (Or.inl rfl)

end WatchParty
